import Mathlib

/-!
Verification of the `scram_hpc_rs` content-acquisition engine.

The Rust source (src/browser.rs, src/lib.rs, src/inference.rs) is shallowly
embedded below.  Every external effect (chromiumoxide browser calls, the
reqwest HTTP transport, the ort model loader, the random number generator)
is resolved by an explicit environment record whose fields give the outcome
of each effect site, and every function additionally returns the trace of
effect events it performed, so that resource-safety and "no network call"
properties are statements about traces.
-/

namespace Scram

/-! ## Browser model (src/browser.rs) -/

/-- Effect events performed by the browser orchestrator.  `launchBrowser`
models `Browser::launch`, `spawnDrainTask` models `tokio::task::spawn` of the
handler-drain loop, `sleep ms` models `tokio::time::sleep`, and the page
events model the corresponding chromiumoxide page calls.  `closeSession`
would model an explicit browser/session shutdown (`Browser::close` or
aborting the drain handle); the source never performs it. -/
inductive BEvent where
  | launchBrowser
  | spawnDrainTask
  | newPage
  | sleep (ms : Nat)
  | goto (url : String)
  | waitForNavigation
  | readContent
  | captureScreenshot
  | closePage
  | closeSession
deriving DecidableEq, Repr

/-- Outcomes of the external effects of one rendered fetch: each `..Ok`
field tells whether the corresponding chromiumoxide call succeeds, the
`..Seed` fields resolve the two `rand::thread_rng().gen_range` draws, and
`content`/`screenshot` are the data the renderer would return. -/
structure BrowserEnv where
  configOk : Bool
  launchOk : Bool
  newPageOk : Bool
  gotoOk : Bool
  waitOk : Bool
  contentOk : Bool
  content : String
  screenshotOk : Bool
  screenshot : List Nat
  closeOk : Bool
  warmSeed : Nat
  settleSeed : Nat

/-- Model of `rand::Rng::gen_range(lo..hi)`: a uniformly sampled value of
the half-open interval `[lo, hi)`; the draw is resolved by `seed`. -/
def gen_range (lo hi seed : Nat) : Nat := lo + seed % (hi - lo)

/-- Embedding of `Result::is_err` for the `Except`-valued results. -/
def isErrB {ε α : Type} : Except ε α → Bool
  | .error _ => true
  | .ok _ => false

/-- Embedding of `Result::is_ok` for the `Except`-valued results. -/
def isOkB {ε α : Type} : Except ε α → Bool
  | .error _ => false
  | .ok _ => true

/-- Model of `BrowserConfig::builder().with_head().build()` from
`MirageBrowser::new`: the builder chain calls `with_head()`
unconditionally, so the built configuration is not headless whatever the
`_headless` argument was. -/
def buildConfig (_headless : Bool) : Bool := false

/-- Model of `MirageBrowser::new(_headless)`: builds the browser config (the
`_headless` parameter is ignored), launches the browser, and on success
spawns the background drain task.  The returned `Unit` stands for the
`MirageBrowser { browser, handle }` value. -/
def MirageBrowser.new (env : BrowserEnv) (headless : Bool) :
    List BEvent × Except String Unit :=
  let _cfg := buildConfig headless
  if !env.configOk then ([], .error "config build failed")
  else if !env.launchOk then ([BEvent.launchBrowser], .error "launch failed")
  else ([BEvent.launchBrowser, BEvent.spawnDrainTask], .ok ())

/-- Model of `MirageBrowser::fetch_page(&self, url)`: opens a blank page,
sleeps a warm-up jitter of `gen_range(500..1500)` ms, navigates, waits for
navigation, sleeps a settle jitter of `gen_range(1000..3000)` ms, reads the
content, captures a screenshot, sets `status = 200`, closes the page and
returns `(content, status, screenshot)`.  Each `?` in the source is a
short-circuit after the corresponding event. -/
def MirageBrowser.fetch_page (env : BrowserEnv) (url : String) :
    List BEvent × Except String (String × Nat × List Nat) :=
  let t0 := [BEvent.newPage]
  if !env.newPageOk then (t0, .error "new_page failed") else
  let jitter := gen_range 500 1500 env.warmSeed
  let t1 := t0 ++ [BEvent.sleep jitter]
  let t2 := t1 ++ [BEvent.goto url]
  if !env.gotoOk then (t2, .error "goto failed") else
  let t3 := t2 ++ [BEvent.waitForNavigation]
  if !env.waitOk then (t3, .error "wait_for_navigation failed") else
  let jitter2 := gen_range 1000 3000 env.settleSeed
  let t4 := t3 ++ [BEvent.sleep jitter2]
  let t5 := t4 ++ [BEvent.readContent]
  if !env.contentOk then (t5, .error "content failed") else
  let t6 := t5 ++ [BEvent.captureScreenshot]
  if !env.screenshotOk then (t6, .error "screenshot failed") else
  let status := 200
  let t7 := t6 ++ [BEvent.closePage]
  if !env.closeOk then (t7, .error "close failed") else
  (t7, .ok (env.content, status, env.screenshot))

/-- Model of `fetch_browser(url, headless)` from src/lib.rs: creates a
`MirageBrowser` (mapping its error into the caller's error type), then runs
`fetch_page` and returns its `(content, status, screenshot)` tuple.  No
close or abort of the session happens on any path of this function. -/
def fetch_browser (env : BrowserEnv) (url : String) (headless : Bool) :
    List BEvent × Except String (String × Nat × List Nat) :=
  let n := MirageBrowser.new env headless
  match n.2 with
  | .error e => (n.1, .error e)
  | .ok _ =>
    let f := MirageBrowser.fetch_page env url
    (n.1 ++ f.1, f.2)

/-- An environment in which every browser effect succeeds. -/
def envAllOk : BrowserEnv :=
  { configOk := true, launchOk := true, newPageOk := true, gotoOk := true,
    waitOk := true, contentOk := true, content := "<html></html>",
    screenshotOk := true, screenshot := [137, 80, 78, 71], closeOk := true,
    warmSeed := 7, settleSeed := 11 }

/-- Environment in which launch and page creation succeed but the
navigation (`page.goto`) fails: the unreachable-URL scenario. -/
def envGotoFail : BrowserEnv := { envAllOk with gotoOk := false }

/-! ## HTTP fetch model (`fetch_url` in src/lib.rs)

`fetch_url` builds a rustls `reqwest::Client`, attaches the caller's
headers to a GET request builder, sends it, and collects status, declared
content length, the response headers whose values convert with
`HeaderValue::to_str`, and the buffered body text.  The reqwest builder
records the first invalid header as an error inside the builder; `send`
then returns that error without performing any network request. -/

/-- Error taxonomy of the direct fetch, keeping the reqwest error kinds
distinguishable (they are all mapped onto `PyRuntimeError` strings by the
binding, but carry the cause shown here). -/
inductive HttpErr where
  | clientBuild
  | invalidHeaderName (name : String)
  | invalidHeaderValue (name : String)
  | transport
  | decode
deriving DecidableEq, Repr

/-- Wire-level events of the direct fetch; `sendRequest` is the actual
network request issued by `reqwest::RequestBuilder::send`. -/
inductive NetEvent where
  | sendRequest (url : String)
deriving DecidableEq, Repr

/-- Valid bytes of an `http::HeaderName` (the token characters accepted by
`HeaderName::from_bytes`): digits, letters, and
`! # $ % & ' * + - . ^ _ \x60 | ~`. -/
def isTokenChar (c : Char) : Bool :=
  let n := c.toNat
  (48 ≤ n && n ≤ 57) || (65 ≤ n && n ≤ 90) || (97 ≤ n && n ≤ 122) ||
  n == 33 || n == 35 || n == 36 || n == 37 || n == 38 || n == 39 ||
  n == 42 || n == 43 || n == 45 || n == 46 || n == 94 || n == 95 ||
  n == 96 || n == 124 || n == 126

/-- Validity per `HeaderName::try_from(&str)`: nonempty and all token
characters. -/
def validHeaderName (s : String) : Bool :=
  !s.isEmpty && s.toList.all isTokenChar

/-- Validity per `HeaderValue::try_from(&str)`: every character is
horizontal tab or has code at least 32 and different from 127 (DEL). -/
def validHeaderValue (s : String) : Bool :=
  s.toList.all fun c => c.toNat == 9 || (32 ≤ c.toNat && c.toNat != 127)

/-- The `for (k, v) in h { request_builder = request_builder.header(k, v) }`
loop: reqwest's builder keeps the first header-conversion error and ignores
later `header` calls once errored, so the loop's outcome is the first
invalid header's error, or success when all headers convert. -/
def attachHeaders : List (String × String) → Except HttpErr Unit
  | [] => .ok ()
  | (k, v) :: t =>
    if !validHeaderName k then .error (.invalidHeaderName k)
    else if !validHeaderValue v then .error (.invalidHeaderValue k)
    else attachHeaders t

/-- Predicate of `http::HeaderValue::to_str`: it succeeds iff every byte is
visible ASCII or horizontal tab, `b >= 32 && b < 127 || b == 9`. -/
def toStrOk (bs : List Nat) : Bool :=
  bs.all fun b => b == 9 || (32 ≤ b && b < 127)

/-- The string a visible-ASCII header value converts to. -/
def asString (bs : List Nat) : String :=
  String.mk (bs.map Char.ofNat)

/-- Model of `HashMap::insert` on the association-list embedding of
`std::collections::HashMap<String, String>`: replaces the value of an
existing key, otherwise appends. -/
def hmInsert (k v : String) : List (String × String) → List (String × String)
  | [] => [(k, v)]
  | (k2, v2) :: t => if k2 == k then (k, v) :: t else (k2, v2) :: hmInsert k v t

/-- The header-extraction loop of `fetch_url`: for each response header, if
`value.to_str()` succeeds the pair is inserted into the map, otherwise the
header is silently skipped. -/
def extractHeadersGo (m : List (String × String)) :
    List (String × List Nat) → List (String × String)
  | [] => m
  | (k, bs) :: t =>
    extractHeadersGo (if toStrOk bs then hmInsert k (asString bs) m else m) t

/-- The headers map `fetch_url` returns, starting from the empty map. -/
def extractHeaders (hs : List (String × List Nat)) : List (String × String) :=
  extractHeadersGo [] hs

/-- Specification helper (for the amended C6): the last response header
with the given name whose value passes the visible-ASCII conversion. -/
def findLastValid (k : String) : List (String × List Nat) → Option (List Nat)
  | [] => none
  | (k2, bs) :: t =>
    match findLastValid k t with
    | some r => some r
    | none => if k2 == k && toStrOk bs then some bs else none

/-- A response delivered by the transport: status, declared content length,
raw headers (values as byte lists), whether `response.text()` decodes, and
the decoded body. -/
structure HttpResp where
  status : Nat
  contentLength : Option Nat
  headers : List (String × List Nat)
  textOk : Bool
  bodyText : String

/-- Outcomes of the external effects of one direct fetch: whether the
client builds, and the transport's answer to the single GET (`none` models
a network-level send failure). -/
structure HttpEnv where
  clientBuildOk : Bool
  response : Option HttpResp

/-- Model of `fetch_url(url, headers)` from src/lib.rs: build the client,
attach the caller's headers, send the GET, read status / content_length,
collect the convertible response headers, and buffer the body text.  The
first component is the trace of network requests actually performed. -/
def fetch_url (env : HttpEnv) (url : String)
    (headers : Option (List (String × String))) :
    List NetEvent × Except HttpErr (String × Nat × Option Nat × List (String × String)) :=
  if !env.clientBuildOk then ([], .error .clientBuild) else
  let builder : Except HttpErr Unit :=
    match headers with
    | none => .ok ()
    | some hs => attachHeaders hs
  match builder with
  | .error e => ([], .error e)
  | .ok _ =>
    let t := [NetEvent.sendRequest url]
    match env.response with
    | none => (t, .error .transport)
    | some r =>
      let status := r.status
      let wire_length := r.contentLength
      let headers_map := extractHeaders r.headers
      if !r.textOk then (t, .error .decode)
      else (t, .ok (r.bodyText, status, wire_length, headers_map))

/-- A response carrying one header whose value byte `0x01` is not visible
ASCII, so `HeaderValue::to_str` fails on it. -/
def respBinHeader : HttpResp :=
  { status := 200, contentLength := none, headers := [("x-bin", [1])],
    textOk := true, bodyText := "ok" }

/-- Transport environment delivering `respBinHeader`. -/
def envBinHeader : HttpEnv :=
  { clientBuildOk := true, response := some respBinHeader }

/-- Environment whose client builds but whose transport is never reached
(used to witness the invalid-header failure). -/
def envNoResponse : HttpEnv :=
  { clientBuildOk := true, response := none }

/-- A response with one non-convertible header and one convertible header
named `server` with value `"ng"` (bytes 110, 103). -/
def respTwoHeaders : HttpResp :=
  { status := 200, contentLength := none,
    headers := [("x-bin", [1]), ("server", [110, 103])],
    textOk := true, bodyText := "ok" }

/-- Transport environment delivering `respTwoHeaders`. -/
def envTwoHeaders : HttpEnv :=
  { clientBuildOk := true, response := some respTwoHeaders }

/-- The mock backend of the spec's end-to-end scenario: status 404, body
`"not found"`. -/
def respNotFound : HttpResp :=
  { status := 404, contentLength := some 9, headers := [],
    textOk := true, bodyText := "not found" }

/-- Transport environment delivering `respNotFound`. -/
def envNotFound : HttpEnv :=
  { clientBuildOk := true, response := some respNotFound }

/-! ## Inference model (src/inference.rs and `run_inference` in src/lib.rs) -/

/-- Outcomes of the ort runtime calls made by `InferenceEngine::new`: the
session builder, the optimization-level setting, the intra-thread setting,
and `commit_from_file` (reading and validating the model file). -/
structure OrtEnv where
  builderOk : Bool
  optimizationOk : Bool
  intraThreadsOk : Bool
  commitOk : Bool

/-- The constructed engine; its `session` field stands for the
`Arc<Session>` the Rust struct owns (opaque to every code path of
`extract`). -/
structure InferenceEngine where
  session : Unit

/-- Model of `InferenceEngine::new(model_path)`: each ort builder step can
fail with its own error; on success the session is wrapped in the engine.
The model path itself is consumed opaquely by `commit_from_file`, whose
outcome `OrtEnv.commitOk` resolves. -/
def InferenceEngine.new (env : OrtEnv) (_model_path : String) :
    Except String InferenceEngine :=
  if !env.builderOk then .error "session builder failed"
  else if !env.optimizationOk then .error "with_optimization_level failed"
  else if !env.intraThreadsOk then .error "with_intra_threads failed"
  else if !env.commitOk then .error "commit_from_file failed"
  else .ok { session := () }

/-- Model of `InferenceEngine::extract(_dom_features)`: ignores the engine
state and the features and returns `Ok(vec![0.99, 0.1, 0.5])`.  The three
f32 literals undergo no arithmetic, so they are represented exactly by the
rational values the source literals denote. -/
def InferenceEngine.extract (_self : InferenceEngine)
    (_dom_features : List Rat) : Except String (List Rat) :=
  .ok [99/100, 1/10, 1/2]

/-- Model of `run_inference(model_path, dom_features)` from src/lib.rs: a
fresh `InferenceEngine` is constructed from the model path on this very
call (no engine is cached anywhere), then `extract` runs on it; each `?`
maps the error into the caller's error type. -/
def run_inference (env : OrtEnv) (model_path : String)
    (dom_features : List Rat) : Except String (List Rat) :=
  match InferenceEngine.new env model_path with
  | .error e => .error e
  | .ok engine =>
    match engine.extract dom_features with
    | .error e => .error e
    | .ok result => .ok result

/-- An ort environment in which every construction step succeeds. -/
def ortAllOk : OrtEnv :=
  { builderOk := true, optimizationOk := true, intraThreadsOk := true,
    commitOk := true }

/-! ## Drain task model (the spawned loop in `MirageBrowser::new`) -/

/-- Model of the spawned drain loop
`while let Some(h) = handler.next().await { if h.is_err() { break } }`:
the event stream is the list of items the renderer's handler would yield;
the first component is the list of items actually consumed (in order), and
the `Unit` is everything the task delivers to anyone — no consumed event is
propagated. -/
def drain_task {ε α : Type} : List (Except ε α) → List (Except ε α) × Unit
  | [] => ([], ())
  | h :: t =>
    if isErrB h then ([h], ())
    else (h :: (drain_task t).1, ())

/-! ## Theorems -/

theorem gen_range_bounds (lo hi seed : Nat) (h : lo < hi) :
    lo ≤ gen_range lo hi seed ∧ gen_range lo hi seed < hi := by
  unfold gen_range
  constructor
  · exact Nat.le_add_right lo _
  · have hm : seed % (hi - lo) < hi - lo :=
      Nat.mod_lt _ (Nat.sub_pos_of_lt h)
    omega

/-- C2: on every success path of the rendered fetch, the returned status is
the constant `200`, irrespective of the environment (hence of the true HTTP
status of the navigated resource). -/
theorem fetch_browser_status_200 (env : BrowserEnv) (url : String)
    (headless : Bool) (res : String × Nat × List Nat)
    (h : (fetch_browser env url headless).2 = .ok res) :
    res.2.1 = 200 := by
  unfold fetch_browser MirageBrowser.new MirageBrowser.fetch_page at h
  simp only at h
  by_cases h1 : env.configOk <;> by_cases h2 : env.launchOk <;>
    by_cases h3 : env.newPageOk <;> by_cases h4 : env.gotoOk <;>
    by_cases h5 : env.waitOk <;> by_cases h6 : env.contentOk <;>
    by_cases h7 : env.screenshotOk <;> by_cases h8 : env.closeOk <;>
    simp [h1, h2, h3, h4, h5, h6, h7, h8] at h <;>
    simp [← h]

/-- Witness for C2: a concrete all-successful run returns status 200. -/
theorem fetch_browser_status_200_witness :
    ∃ res, (fetch_browser envAllOk "https://a.test/" true).2 = .ok res ∧
      res.2.1 = 200 :=
  ⟨(envAllOk.content, 200, envAllOk.screenshot), rfl,
    fetch_browser_status_200 envAllOk "https://a.test/" true _ rfl⟩

/-- C3: the warm-up delay slept before navigation lies in `[500, 1500)` ms,
every later delay lies in `[1000, 3000)` ms, and when navigation and the
navigation wait succeed the settle delay is slept directly after the
navigation wait and before the content read, in `[1000, 3000)` ms. -/
theorem fetch_page_delay_bounds (env : BrowserEnv) (url : String)
    (h : env.newPageOk = true) :
    (∃ warm rest,
      (MirageBrowser.fetch_page env url).1 =
        BEvent.newPage :: BEvent.sleep warm :: BEvent.goto url :: rest ∧
      500 ≤ warm ∧ warm < 1500 ∧
      (∀ ms, BEvent.sleep ms ∈ rest → 1000 ≤ ms ∧ ms < 3000)) ∧
    (env.gotoOk = true → env.waitOk = true →
      ∃ warm settle rest2,
        (MirageBrowser.fetch_page env url).1 =
          BEvent.newPage :: BEvent.sleep warm :: BEvent.goto url ::
            BEvent.waitForNavigation :: BEvent.sleep settle ::
            BEvent.readContent :: rest2 ∧
        1000 ≤ settle ∧ settle < 3000) := by
  have hw := gen_range_bounds 500 1500 env.warmSeed (by norm_num)
  have hs := gen_range_bounds 1000 3000 env.settleSeed (by norm_num)
  unfold MirageBrowser.fetch_page
  refine ⟨?_, ?_⟩
  · by_cases h4 : env.gotoOk <;> by_cases h5 : env.waitOk <;>
      by_cases h6 : env.contentOk <;> by_cases h7 : env.screenshotOk <;>
      by_cases h8 : env.closeOk <;>
      simp [h, h4, h5, h6, h7, h8] <;>
      refine ⟨_, _, ⟨rfl, rfl⟩, hw.1, hw.2, fun ms hms => ?_⟩ <;>
      simp at hms <;>
      (subst hms; exact ⟨hs.1, hs.2⟩)
  · intro hg hv
    by_cases h6 : env.contentOk <;> by_cases h7 : env.screenshotOk <;>
      by_cases h8 : env.closeOk <;>
      simp [h, hg, hv, h6, h7, h8] <;>
      exact ⟨_, _, ⟨rfl, rfl⟩, hs.1, hs.2⟩

/-- Witness for C3 at a concrete environment. -/
theorem fetch_page_delay_bounds_witness :
    envAllOk.newPageOk = true ∧
    ((∃ warm rest,
      (MirageBrowser.fetch_page envAllOk "https://a.test/").1 =
        BEvent.newPage :: BEvent.sleep warm ::
          BEvent.goto "https://a.test/" :: rest ∧
      500 ≤ warm ∧ warm < 1500 ∧
      (∀ ms, BEvent.sleep ms ∈ rest → 1000 ≤ ms ∧ ms < 3000)) ∧
    (envAllOk.gotoOk = true → envAllOk.waitOk = true →
      ∃ warm settle rest2,
        (MirageBrowser.fetch_page envAllOk "https://a.test/").1 =
          BEvent.newPage :: BEvent.sleep warm ::
            BEvent.goto "https://a.test/" ::
            BEvent.waitForNavigation :: BEvent.sleep settle ::
            BEvent.readContent :: rest2 ∧
        1000 ≤ settle ∧ settle < 3000)) :=
  ⟨rfl, fetch_page_delay_bounds envAllOk "https://a.test/" rfl⟩

/-- C1 is violated by the code: in a run where the session is successfully
created and navigation fails, the error is propagated by `?` before
`page.close()` is reached, and no path of `fetch_browser` ever closes the
session (no `Browser::close`, no abort of the drain handle) — not even the
all-success path.  The trace of the failing run contains the session
creation and the navigation attempt but no close event at all. -/
theorem fetch_browser_leaks_on_nav_failure :
    (isErrB (MirageBrowser.fetch_page envGotoFail "https://x.test/").2 = true ∧
     isErrB (fetch_browser envGotoFail "https://x.test/" true).2 = true ∧
     BEvent.launchBrowser ∈ (fetch_browser envGotoFail "https://x.test/" true).1 ∧
     BEvent.newPage ∈ (fetch_browser envGotoFail "https://x.test/" true).1 ∧
     BEvent.goto "https://x.test/" ∈ (fetch_browser envGotoFail "https://x.test/" true).1 ∧
     BEvent.closePage ∉ (fetch_browser envGotoFail "https://x.test/" true).1 ∧
     BEvent.closeSession ∉ (fetch_browser envGotoFail "https://x.test/" true).1) ∧
    (isOkB (fetch_browser envAllOk "https://x.test/" true).2 = true ∧
     BEvent.closeSession ∉ (fetch_browser envAllOk "https://x.test/" true).1) := by
  decide

/-- C9: the behavior of the rendered fetch is independent of the `headless`
argument: `MirageBrowser::new` never reads its `_headless` parameter and
always configures the browser with `with_head()`, so two runs differing
only in the flag are indistinguishable. -/
theorem fetch_browser_headless_independent (env : BrowserEnv) (url : String)
    (h1 h2 : Bool) :
    fetch_browser env url h1 = fetch_browser env url h2 ∧
      buildConfig h1 = buildConfig h2 ∧ buildConfig h1 = false :=
  ⟨rfl, rfl, rfl⟩

theorem attachHeaders_invalid (hs : List (String × String))
    (h : hs.all (fun p => validHeaderName p.1 && validHeaderValue p.2) = false) :
    ∃ k, attachHeaders hs = .error (.invalidHeaderName k) ∨
      attachHeaders hs = .error (.invalidHeaderValue k) := by
  induction hs with
  | nil => simp at h
  | cons p t ih =>
    obtain ⟨k, v⟩ := p
    by_cases hk : validHeaderName k
    · by_cases hv : validHeaderValue v
      · simp only [List.all_cons, hk, hv, Bool.and_self, Bool.true_and] at h
        obtain ⟨k2, hk2⟩ := ih h
        exact ⟨k2, by simpa [attachHeaders, hk, hv] using hk2⟩
      · exact ⟨k, Or.inr (by simp [attachHeaders, hk, hv])⟩
    · exact ⟨k, Or.inl (by simp [attachHeaders, hk])⟩

/-- C5: if any caller-supplied header has a name or value that is invalid
per the transport's header-encoding rules, `fetch_url` fails with the
corresponding invalid-header error (recorded at the attachment loop and
surfaced by `send`) and its trace contains no network request. -/
theorem fetch_url_invalid_header (env : HttpEnv) (url : String)
    (hs : List (String × String))
    (hbuild : env.clientBuildOk = true)
    (h : hs.all (fun p => validHeaderName p.1 && validHeaderValue p.2) = false) :
    (fetch_url env url (some hs)).1 = [] ∧
      ∃ k, (fetch_url env url (some hs)).2 = .error (.invalidHeaderName k) ∨
        (fetch_url env url (some hs)).2 = .error (.invalidHeaderValue k) := by
  obtain ⟨k, hk⟩ := attachHeaders_invalid hs h
  rcases hk with hk | hk <;>
    exact ⟨by simp [fetch_url, hbuild, hk], k, by simp [fetch_url, hbuild, hk]⟩

/-- Witness for C5: a header with a space in its name fails the fetch with
`invalidHeaderName` and no request is sent. -/
theorem fetch_url_invalid_header_witness :
    (envNoResponse.clientBuildOk = true) ∧
    ([(("bad name", "v") : String × String)].all
      (fun p => validHeaderName p.1 && validHeaderValue p.2) = false) ∧
    ((fetch_url envNoResponse "http://h.test/"
        (some [("bad name", "v")])).1 = [] ∧
      ∃ k, (fetch_url envNoResponse "http://h.test/"
          (some [("bad name", "v")])).2 = .error (.invalidHeaderName k) ∨
        (fetch_url envNoResponse "http://h.test/"
          (some [("bad name", "v")])).2 = .error (.invalidHeaderValue k)) :=
  ⟨rfl, by decide,
    fetch_url_invalid_header envNoResponse "http://h.test/"
      [("bad name", "v")] rfl (by decide)⟩

/-- Counterexample to C6: the response contains the header `x-bin`, but the
mapping returned by `fetch_url` is empty — headers whose values fail the
visible-ASCII conversion are silently dropped, so not every received
header name appears in the returned mapping. -/
theorem fetch_url_header_dropped :
    ("x-bin", [1]) ∈ respBinHeader.headers ∧
      (fetch_url envBinHeader "http://h.test/" none).2 =
        .ok ("ok", 200, none, []) := by
  constructor
  · simp [respBinHeader]
  · rfl

theorem lookup_hmInsert_self (k v : String) (m : List (String × String)) :
    (hmInsert k v m).lookup k = some v := by
  induction m with
  | nil => simp [hmInsert, List.lookup]
  | cons p t ih =>
    obtain ⟨k2, v2⟩ := p
    rw [hmInsert]
    by_cases h2 : k2 = k
    · simp [h2, List.lookup]
    · have hb : (k2 == k) = false := by simpa using h2
      have hb2 : (k == k2) = false := by
        simpa using fun he => h2 he.symm
      simp [hb, hb2, List.lookup, ih]

theorem lookup_hmInsert_ne (k k2 v : String) (m : List (String × String))
    (h : ¬ k2 = k) :
    (hmInsert k2 v m).lookup k = m.lookup k := by
  have hb : (k2 == k) = false := by simpa using h
  have hb2 : (k == k2) = false := by
    simpa using fun he => h he.symm
  induction m with
  | nil => simp [hmInsert, List.lookup, hb2]
  | cons p t ih =>
    obtain ⟨k3, v3⟩ := p
    rw [hmInsert]
    by_cases h3 : k3 = k2
    · subst h3
      simp [List.lookup, hb2]
    · have hb3 : (k3 == k2) = false := by simpa using h3
      by_cases h4 : k = k3
      · subst h4
        simp [List.lookup, hb3]
      · have hb4 : (k == k3) = false := by simpa using h4
        simp [List.lookup, hb3, hb4, ih]

theorem extractHeadersGo_lookup (k : String) (hs : List (String × List Nat)) :
    ∀ m : List (String × String),
      (extractHeadersGo m hs).lookup k =
        match findLastValid k hs with
        | some bs => some (asString bs)
        | none => m.lookup k := by
  induction hs with
  | nil => intro m; simp [extractHeadersGo, findLastValid]
  | cons p t ih =>
    intro m
    obtain ⟨k2, bs⟩ := p
    simp only [extractHeadersGo, findLastValid]
    rw [ih]
    cases hlast : findLastValid k t with
    | some r => simp
    | none =>
      simp only
      by_cases hok : toStrOk bs
      · by_cases hkk : k2 = k
        · subst hkk
          simp [hok, lookup_hmInsert_self]
        · have hb : (k2 == k) = false := by simpa using hkk
          simp [hok, hb, lookup_hmInsert_ne k k2 _ m hkk]
      · simp [hok]

/-- Amended C6: whenever `fetch_url` returns a result, its header mapping
binds a name exactly when the response carried that name with a
visible-ASCII-convertible value, and the bound value is the conversion of
the last such received value; headers whose values do not convert are
dropped. -/
theorem fetch_url_headers_amended (env : HttpEnv) (url : String)
    (r : HttpResp) (body : String) (s : Nat) (cl : Option Nat)
    (m : List (String × String)) (k : String)
    (hr : env.response = some r)
    (h : (fetch_url env url none).2 = .ok (body, s, cl, m)) :
    m.lookup k = (findLastValid k r.headers).map asString := by
  unfold fetch_url at h
  by_cases hb : env.clientBuildOk
  · simp only [hb, Bool.not_true, Bool.false_eq_true, if_false] at h
    rw [hr] at h
    by_cases ht : r.textOk
    · simp [ht] at h
      have hm : m = extractHeaders r.headers := h.2.2.2.symm
      rw [hm, extractHeaders, extractHeadersGo_lookup]
      cases findLastValid k r.headers <;> simp [List.lookup]
    · simp [ht] at h
  · simp [hb] at h

/-- Witness for the amended C6 at a concrete response: the invalid-valued
header is absent, and a present valid header is returned with its received
value. -/
theorem fetch_url_headers_amended_witness :
    (envTwoHeaders.response = some respTwoHeaders) ∧
    (List.lookup "x-bin" [(("server" : String), ("ng" : String))] =
      (findLastValid "x-bin" respTwoHeaders.headers).map asString) ∧
    (List.lookup "server" [(("server" : String), ("ng" : String))] =
      (findLastValid "server" respTwoHeaders.headers).map asString) := by
  refine ⟨rfl, ?_, ?_⟩
  · exact fetch_url_headers_amended envTwoHeaders "http://h.test/"
      respTwoHeaders "ok" 200 none [("server", "ng")] "x-bin" rfl rfl
  · exact fetch_url_headers_amended envTwoHeaders "http://h.test/"
      respTwoHeaders "ok" 200 none [("server", "ng")] "server" rfl rfl

/-- C7: `fetch_url` never turns a non-success HTTP status into an error:
whenever the transport delivers a response whose body decodes, the call
returns `Ok` with exactly the delivered status and body, whatever the
status is. -/
theorem fetch_url_no_status_error (env : HttpEnv) (url : String)
    (r : HttpResp)
    (hbuild : env.clientBuildOk = true)
    (hr : env.response = some r)
    (ht : r.textOk = true) :
    (fetch_url env url none).2 =
      .ok (r.bodyText, r.status, r.contentLength, extractHeaders r.headers) := by
  simp [fetch_url, hbuild, hr, ht]

/-- Witness for C7: a backend answering 404 with body `"not found"` yields
a successful result carrying status 404 and that body, no error raised. -/
theorem fetch_url_404_witness :
    (envNotFound.clientBuildOk = true) ∧
    (fetch_url envNotFound "http://x.test/missing" none).2 =
      .ok ("not found", 404, some 9, []) :=
  ⟨rfl, fetch_url_no_status_error envNotFound "http://x.test/missing"
    respNotFound rfl rfl rfl⟩

/-- C4: `extract` ignores both the engine state and its feature-vector
input and returns the fixed score vector `[0.99, 0.1, 0.5]`; any two calls
(same or different input) yield identical output. -/
theorem extract_constant (e1 e2 : InferenceEngine) (f1 f2 : List Rat) :
    e1.extract f1 = .ok [99/100, 1/10, 1/2] ∧ e1.extract f1 = e2.extract f2 :=
  ⟨rfl, rfl⟩

/-- C10: `run_inference` constructs the engine from the model path on each
invocation (its outcome is exactly the outcome of this call's engine
construction — no cached engine can mask a failing construction), it
errs iff construction errs, and whenever construction succeeds it returns
`Ok([0.99, 0.1, 0.5])` for every features argument. -/
theorem run_inference_spec (env : OrtEnv) (p : String) (f : List Rat) :
    (isOkB (run_inference env p f) = isOkB (InferenceEngine.new env p)) ∧
    (∀ engine, InferenceEngine.new env p = .ok engine →
      run_inference env p f = .ok [99/100, 1/10, 1/2]) ∧
    (∀ g, run_inference env p f = run_inference env p g) := by
  cases hn : InferenceEngine.new env p with
  | error e => simp [run_inference, hn, isOkB]
  | ok engine => simp [run_inference, hn, isOkB, InferenceEngine.extract]

/-- Witness for C10: with every ort step succeeding, a concrete call
returns the fixed scores, and the equivalences hold at that input. -/
theorem run_inference_spec_witness :
    run_inference ortAllOk "model.onnx" [1, 2, 3] = .ok [99/100, 1/10, 1/2] ∧
      isOkB (run_inference ortAllOk "model.onnx" [1, 2, 3]) =
        isOkB (InferenceEngine.new ortAllOk "model.onnx") :=
  ⟨(run_inference_spec ortAllOk "model.onnx" [1, 2, 3]).2.1 { session := () } rfl,
    (run_inference_spec ortAllOk "model.onnx" [1, 2, 3]).1⟩

/-- C8: the drain task consumes the stream items one after another,
stopping exactly at the end of the stream or with the first error item
(which is itself consumed), and delivers nothing but `Unit` — no consumed
event is propagated.  The task is the one spawned by `MirageBrowser::new`
exactly on its successful paths. -/
theorem drain_task_spec :
    (∀ (s : List (Except String Unit)),
      drain_task s =
        (s.takeWhile (fun h => !isErrB h) ++
          (s.dropWhile (fun h => !isErrB h)).take 1, ())) ∧
    (∀ (env : BrowserEnv) (headless : Bool),
      BEvent.spawnDrainTask ∈ (MirageBrowser.new env headless).1 ↔
        isOkB (MirageBrowser.new env headless).2 = true) := by
  constructor
  · intro s
    induction s with
    | nil => rfl
    | cons h t ih =>
      cases h with
      | error e => simp [drain_task, isErrB, List.takeWhile, List.dropWhile]
      | ok a =>
        simp [drain_task, isErrB, List.takeWhile, List.dropWhile, ih]
  · intro env headless
    unfold MirageBrowser.new
    by_cases h1 : env.configOk <;> by_cases h2 : env.launchOk <;>
      simp [h1, h2, isOkB]

/-- Witness for C8: a concrete stream with a mid-stream error, and a
concrete successful session creation. -/
theorem drain_task_spec_witness :
    (drain_task [Except.ok (), Except.error "boom", Except.ok ()] =
      (([Except.ok (), Except.error "boom",
          Except.ok ()] : List (Except String Unit)).takeWhile
            (fun h => !isErrB h) ++
        (([Except.ok (), Except.error "boom",
            Except.ok ()] : List (Except String Unit)).dropWhile
              (fun h => !isErrB h)).take 1, ())) ∧
    (BEvent.spawnDrainTask ∈ (MirageBrowser.new envAllOk true).1 ↔
      isOkB (MirageBrowser.new envAllOk true).2 = true) :=
  ⟨drain_task_spec.1 [Except.ok (), Except.error "boom", Except.ok ()],
    drain_task_spec.2 envAllOk true⟩

end Scram
